import Mathlib

/-!
Shallow embedding of `opentimelineio/media_linker.py` (OpenTimelineIO media
linker core): policy sentinels, name resolution (`from_name`), the strict
default accessor (`default_media_linker`), the orchestrator
(`linked_media_reference`), and the `MediaLinker` plugin wrapper
(`link_media_reference`, `is_default_linker`, `plugin_info_map`).

Modelling conventions:
* The only environment variable the module reads is
  `OTIO_DEFAULT_MEDIA_LINKER`; the process environment is therefore embedded
  as `env : Option String`, the value of that variable (`none` = unset).
* Python string arguments that may be `None` are `Option String`; Python
  falsiness of such a value (`not name`) holds exactly for `none` and
  `some ""`.
* The argument map is a key/value list `List (String × Val)`; a falsy map is
  `none` (Python `None`) or `some []` (Python `{}`).
* Exceptions are the `Except` monad over `OTIOErr`.
* Registry lookups and plugin invocations are recorded in an event trace, so
  that "no registry lookup" and "invoked exactly once" are statable.
-/

/-- Errors of the embedded module.  `cannotLinkMedia` stands for
`otio.exceptions.CannotLinkMediaError` (and its subtypes, distinguished by the
message), `notSupported` for `otio.exceptions.NotSupportedError` (carrying, as
the formatted message does, the requested name and the available-name list),
`noDefaultMediaLinker` for `otio.exceptions.NoDefaultMediaLinkerError`, and
`otherError` for any other exception a plugin may raise. -/
inductive OTIOErr : Type where
  | cannotLinkMedia (msg : String)
  | notSupported (requested : String) (available : List String)
  | noDefaultMediaLinker (msg : String)
  | otherError (msg : String)
  deriving DecidableEq, Repr

namespace MediaLinkingPolicy

/-- Sentinel of `class MediaLinkingPolicy`: suppress linking. -/
def DoNotLinkMedia : String := "__do_not_link_media"

/-- Sentinel of `class MediaLinkingPolicy`: use the configured default. -/
def ForceDefaultLinker : String := "__default"

end MediaLinkingPolicy

/-- One registered media linker plugin.  `name` is the adapter name,
`doc` the documentation the parent `PythonPlugin.plugin_info_map` reports for
the plugin, `fnDoc` the `inspect.getdoc` of the module-level
`link_media_reference` entry point (`none` when there is no docstring), and
`link` the plugin's entry point itself (what `_execute_function` runs),
which returns a media reference or raises. -/
structure MediaLinker (Clip : Type) (MediaRef : Type) (Val : Type) : Type where
  name : String
  doc : String
  fnDoc : Option String
  link : Clip → List (String × Val) → Except OTIOErr MediaRef

/-- Observable effects of a call: a registry lookup of a name, or an
invocation of a plugin's link entry point with a clip and an argument map. -/
inductive Event (Clip : Type) (MediaRef : Type) (Val : Type) : Type where
  | registryLookup (name : String)
  | pluginInvoke (linker : MediaLinker Clip MediaRef Val) (clip : Clip)
      (args : List (String × Val))

/-- Result of the orchestrator: either the untouched input clip or the media
reference produced by a plugin. -/
inductive LinkOutcome (Clip : Type) (MediaRef : Type) : Type where
  | clip (c : Clip)
  | ref (r : MediaRef)
  deriving Repr

/-- Python falsiness of an optional string: `None` and `""` are falsy. -/
def isFalsyName : Option String → Bool
  | none => true
  | some s => s == ""

/-- `available_media_linker_names`: the names of the plugins in the active
manifest (`[str(adp.name) for adp in plugins.ActiveManifest().media_linkers]`;
`str` of a string is itself). -/
def available_media_linker_names {Clip MediaRef Val : Type}
    (manifest : List (MediaLinker Clip MediaRef Val)) : List String :=
  manifest.map (fun adp => adp.name)

/-- Modelled from the spec: `plugins.ActiveManifest().from_name(name,
kind_list="media_linkers")` is code of the plugin system outside this module.
Per spec section 4.2, `LinkerRegistry.lookup(name)` resolves a name to the
registered descriptor and fails with an `UnsupportedLinkerError`
(`NotSupportedError`) when the name is not registered. -/
def manifest_from_name {Clip MediaRef Val : Type}
    (manifest : List (MediaLinker Clip MediaRef Val)) (name : String) :
    Except OTIOErr (MediaLinker Clip MediaRef Val) :=
  match manifest.find? (fun ml => ml.name == name) with
  | some ml => Except.ok ml
  | none => Except.error (OTIOErr.notSupported name [])

/-- `from_name(name)`: substitute the environment default when `name` is the
`ForceDefaultLinker` sentinel or falsy; return `None` when the result is
falsy; otherwise look the name up in the active manifest, re-raising a
`NotSupportedError` enriched with the requested name and the fresh
available-name list.  The trace records the registry lookup when one
happens. -/
def from_name {Clip MediaRef Val : Type} (env : Option String)
    (manifest : List (MediaLinker Clip MediaRef Val)) (name : Option String) :
    Except OTIOErr (Option (MediaLinker Clip MediaRef Val)) ×
      List (Event Clip MediaRef Val) :=
  let name1 :=
    if name == some MediaLinkingPolicy.ForceDefaultLinker || isFalsyName name
    then env else name
  if isFalsyName name1 then (Except.ok none, [])
  else
    let n := name1.getD ""
    match manifest_from_name manifest n with
    | Except.ok ml => (Except.ok (some ml), [Event.registryLookup n])
    | Except.error _ =>
        (Except.error
          (OTIOErr.notSupported n (available_media_linker_names manifest)),
         [Event.registryLookup n])

/-- `default_media_linker()`: `os.environ['OTIO_DEFAULT_MEDIA_LINKER']`
raises `KeyError` exactly when the variable is unset, turned into
`NoDefaultMediaLinkerError`; otherwise the stored value is returned. -/
def default_media_linker (env : Option String) : Except OTIOErr String :=
  match env with
  | some v => Except.ok v
  | none =>
      Except.error (OTIOErr.noDefaultMediaLinker
        "No default Media Linker set in $OTIO_DEFAULT_MEDIA_LINKER")

/-- `MediaLinker.link_media_reference(in_clip, media_linker_argument_map)`:
normalise a falsy argument map to `{}` (`media_linker_argument_map or {}`),
then run the plugin entry point (`_execute_function`, modelled as the
descriptor's `link` field) on the clip and the normalised map, recording the
invocation. -/
def MediaLinker.link_media_reference {Clip MediaRef Val : Type}
    (self : MediaLinker Clip MediaRef Val) (in_clip : Clip)
    (media_linker_argument_map : Option (List (String × Val))) :
    Except OTIOErr MediaRef × List (Event Clip MediaRef Val) :=
  let args :=
    match media_linker_argument_map with
    | none => []
    | some m => if m.isEmpty then [] else m
  (self.link in_clip args, [Event.pluginInvoke self in_clip args])

/-- `MediaLinker.is_default_linker()`:
`os.environ.get("OTIO_DEFAULT_MEDIA_LINKER", "") == self.name`. -/
def MediaLinker.is_default_linker {Clip MediaRef Val : Type}
    (self : MediaLinker Clip MediaRef Val) (env : Option String) : Bool :=
  env.getD "" == self.name

/-- The fields of the `plugin_info_map` dictionary this module touches:
the `doc` entry and the `** CURRENT DEFAULT MEDIA LINKER` key (represented by
a boolean that is `true` exactly when the key is present, with value
`True`). -/
structure PluginInfo : Type where
  doc : String
  currentDefaultFlag : Bool
  deriving DecidableEq, Repr

/-- Modelled from the spec: the parent `PythonPlugin.plugin_info_map` (plugin
base code outside this module) supplies, per spec section 4.3, the
descriptor's own declared documentation under the `doc` key; the default
flag key is absent in it. -/
def basePluginInfoMap {Clip MediaRef Val : Type}
    (self : MediaLinker Clip MediaRef Val) : PluginInfo :=
  PluginInfo.mk self.doc false

/-- `MediaLinker.plugin_info_map()`: start from the parent map; when
`inspect.getdoc(self.module().link_media_reference)` is truthy, replace the
`doc` entry with `"\n".join([result['doc'], "", fn_doc])`; add the default
flag key when `is_default_linker()` holds. -/
def MediaLinker.plugin_info_map {Clip MediaRef Val : Type}
    (self : MediaLinker Clip MediaRef Val) (env : Option String) : PluginInfo :=
  let result := basePluginInfoMap self
  let doc1 :=
    match self.fnDoc with
    | some fn_doc =>
        if fn_doc == "" then result.doc
        else String.intercalate "\n" [result.doc, "", fn_doc]
    | none => result.doc
  PluginInfo.mk doc1 (self.is_default_linker env || result.currentDefaultFlag)

/-- `linked_media_reference(target_clip, media_linker_name,
media_linker_argument_map)`: resolve the linker via `from_name`; when
resolution yields `None` return the clip unchanged; otherwise normalise a
falsy argument map to `{}` and delegate to the linker's
`link_media_reference`, returning its media reference or propagating its
failure. -/
def linked_media_reference {Clip MediaRef Val : Type} (env : Option String)
    (manifest : List (MediaLinker Clip MediaRef Val)) (target_clip : Clip)
    (media_linker_name : Option String)
    (media_linker_argument_map : Option (List (String × Val))) :
    Except OTIOErr (LinkOutcome Clip MediaRef) ×
      List (Event Clip MediaRef Val) :=
  match from_name env manifest media_linker_name with
  | (Except.error e, events) => (Except.error e, events)
  | (Except.ok none, events) => (Except.ok (LinkOutcome.clip target_clip), events)
  | (Except.ok (some media_linker), events) =>
      let argMap :=
        match media_linker_argument_map with
        | none => some ([] : List (String × Val))
        | some m => if m.isEmpty then some [] else some m
      match media_linker.link_media_reference target_clip argMap with
      | (Except.ok r, ev2) => (Except.ok (LinkOutcome.ref r), events ++ ev2)
      | (Except.error e, ev2) => (Except.error e, events ++ ev2)

/-- Concrete linker used by witnesses: name `studio-v1`, maps a `Nat` clip to
the media reference `clip + 1`. -/
def demoLinker : MediaLinker Nat Nat Nat :=
  MediaLinker.mk "studio-v1" "demo docs" (some "links demo media")
    (fun c _ => Except.ok (c + 1))

/-- Concrete linker used by witnesses: always raises `CannotLinkMediaError`. -/
def failingLinker : MediaLinker Nat Nat Nat :=
  MediaLinker.mk "failing" "failing docs" none
    (fun _ _ => Except.error (OTIOErr.cannotLinkMedia "no media found"))

/-- Concrete linker whose name is the empty string. -/
def unnamedLinker : MediaLinker Nat Nat Nat :=
  MediaLinker.mk "" "" none (fun _ _ => Except.ok 0)

/-- Concrete linker whose descriptor documentation is empty while its entry
point has a docstring. -/
def blankDocLinker : MediaLinker Nat Nat Nat :=
  MediaLinker.mk "blank" "" (some "entry point docs") (fun _ _ => Except.ok 0)

/-- Result of the double falsy-map normalisation the orchestrator and the
wrapper method perform before the plugin runs: `none` and `some []` become
the empty map, any other map passes through. -/
def pyOrEmptyMap {Val : Type} : Option (List (String × Val)) → List (String × Val)
  | none => []
  | some m => if m.isEmpty then [] else m

/-- A three-element join with a blank middle element is append with a
double-newline separator. -/
theorem intercalate_blank_sep (a f : String) :
    String.intercalate "\n" [a, "", f] = a ++ "\n\n" ++ f := by
  simp [String.intercalate, String.intercalate.go]
  rw [String.append_assoc a]
  rfl

/-- `from_name` returns no linker, a found linker after one lookup, or an
enriched not-supported error after one lookup. -/
theorem from_name_cases {Clip MediaRef Val : Type} (env : Option String)
    (manifest : List (MediaLinker Clip MediaRef Val)) (name : Option String) :
    (from_name env manifest name = (Except.ok none, []))
    ∨ (∃ n ml, manifest.find? (fun l => l.name == n) = some ml ∧
        from_name env manifest name
          = (Except.ok (some ml), [Event.registryLookup n]))
    ∨ (∃ n, from_name env manifest name
        = (Except.error
            (OTIOErr.notSupported n (available_media_linker_names manifest)),
           [Event.registryLookup n])) := by
  unfold from_name manifest_from_name
  set name1 :=
    if name == some MediaLinkingPolicy.ForceDefaultLinker || isFalsyName name
    then env else name with hname1
  by_cases hf : isFalsyName name1
  · left
    simp [hf]
  · right
    simp only [hf, Bool.false_eq_true, if_false]
    cases hfind : manifest.find? (fun l => l.name == name1.getD "") with
    | some ml =>
        left
        exact ⟨name1.getD "", ml, hfind, by simp [hfind]⟩
    | none =>
        right
        exact ⟨name1.getD "", by simp [hfind]⟩

/-- `from_name` on an explicit name that is neither the force-default
sentinel nor empty: the name is looked up as-is, with the enriched error on
a miss. -/
theorem from_name_explicit {Clip MediaRef Val : Type} (env : Option String)
    (manifest : List (MediaLinker Clip MediaRef Val)) (n : String)
    (hnFD : n ≠ MediaLinkingPolicy.ForceDefaultLinker) (hne : n ≠ "") :
    from_name env manifest (some n)
      = (match manifest.find? (fun l => l.name == n) with
         | some ml => (Except.ok (some ml), [Event.registryLookup n])
         | none =>
            (Except.error
              (OTIOErr.notSupported n (available_media_linker_names manifest)),
             [Event.registryLookup n])) := by
  unfold from_name manifest_from_name
  have h1 : (some n == some MediaLinkingPolicy.ForceDefaultLinker) = false := by
    simp [hnFD]
  have h2 : isFalsyName (some n) = false := by simp [isFalsyName, hne]
  simp only [h1, h2, Bool.or_self, Bool.false_eq_true, if_false, Option.getD_some]
  cases hfind : manifest.find? (fun l => l.name == n) <;> simp [hfind]

/-- `from_name` on a falsy or force-default requested name: the environment
default is substituted; a falsy environment yields no linker, otherwise the
environment value is looked up. -/
theorem from_name_default_path {Clip MediaRef Val : Type} (env : Option String)
    (manifest : List (MediaLinker Clip MediaRef Val)) (name : Option String)
    (hname : name = some MediaLinkingPolicy.ForceDefaultLinker ∨ name = none
      ∨ name = some "") :
    from_name env manifest name
      = (if isFalsyName env then (Except.ok none, [])
         else
           (match manifest_from_name manifest (env.getD "") with
            | Except.ok ml =>
                (Except.ok (some ml), [Event.registryLookup (env.getD "")])
            | Except.error _ =>
                (Except.error
                  (OTIOErr.notSupported (env.getD "")
                    (available_media_linker_names manifest)),
                 [Event.registryLookup (env.getD "")]))) := by
  unfold from_name
  rcases hname with h | h | h <;> subst h <;> simp [isFalsyName]

/-- The orchestrator when resolution produced no linker: the clip comes back
unchanged with the resolution trace. -/
theorem linked_media_reference_none_case {Clip MediaRef Val : Type}
    (env : Option String) (manifest : List (MediaLinker Clip MediaRef Val))
    (c : Clip) (nm : Option String) (am : Option (List (String × Val)))
    (evs : List (Event Clip MediaRef Val))
    (h : from_name env manifest nm = (Except.ok none, evs)) :
    linked_media_reference env manifest c nm am
      = (Except.ok (LinkOutcome.clip c), evs) := by
  unfold linked_media_reference
  rw [h]

/-- The orchestrator when resolution failed: the failure propagates with the
resolution trace. -/
theorem linked_media_reference_error_case {Clip MediaRef Val : Type}
    (env : Option String) (manifest : List (MediaLinker Clip MediaRef Val))
    (c : Clip) (nm : Option String) (am : Option (List (String × Val)))
    (e : OTIOErr) (evs : List (Event Clip MediaRef Val))
    (h : from_name env manifest nm = (Except.error e, evs)) :
    linked_media_reference env manifest c nm am = (Except.error e, evs) := by
  unfold linked_media_reference
  rw [h]

/-- The orchestrator when resolution found a linker: the plugin entry point
runs once on the clip and the normalised argument map, its result (success
or failure) is returned as-is, and the invocation is appended to the
trace. -/
theorem linked_media_reference_resolved {Clip MediaRef Val : Type}
    (env : Option String) (manifest : List (MediaLinker Clip MediaRef Val))
    (c : Clip) (nm : Option String) (ml : MediaLinker Clip MediaRef Val)
    (evs : List (Event Clip MediaRef Val))
    (h : from_name env manifest nm = (Except.ok (some ml), evs))
    (am : Option (List (String × Val))) :
    linked_media_reference env manifest c nm am
      = (Except.map LinkOutcome.ref (ml.link c (pyOrEmptyMap am)),
         evs ++ [Event.pluginInvoke ml c (pyOrEmptyMap am)]) := by
  unfold linked_media_reference
  rw [h]
  unfold MediaLinker.link_media_reference
  cases am with
  | none =>
      simp only [pyOrEmptyMap, List.isEmpty_nil, if_true]
      cases hr : ml.link c [] <;> simp [hr, Except.map]
  | some m =>
      by_cases hm : m.isEmpty
      · have hm0 : m = [] := by simpa [List.isEmpty_iff] using hm
        subst hm0
        simp only [pyOrEmptyMap, List.isEmpty_nil, if_true]
        cases hr : ml.link c [] <;> simp [hr, Except.map]
      · simp only [pyOrEmptyMap, hm, Bool.false_eq_true, if_false]
        cases hr : ml.link c m <;> simp [hr, hm, Except.map]

/-- Normalisation passes a non-falsy map through unchanged (an empty map is
replaced by an equal empty map). -/
theorem pyOrEmptyMap_some {Val : Type} (m : List (String × Val)) :
    pyOrEmptyMap (some m) = m := by
  by_cases hm : m.isEmpty
  · have hm0 : m = [] := by simpa [List.isEmpty_iff] using hm
    subst hm0
    rfl
  · simp [pyOrEmptyMap, hm]

/-- C1: calling the orchestrator with the `DoNotLinkMedia` sentinel is not a
terminal case: evaluated on a concrete clip against a registry holding only
`studio-v1`, `linked_media_reference` performs a registry lookup of the
sentinel string itself and raises the enriched `NotSupportedError` instead of
returning the clip unchanged. -/
theorem doNotLink_sentinel_is_looked_up_and_raises :
    linked_media_reference none [demoLinker] 0
        (some MediaLinkingPolicy.DoNotLinkMedia) (some [])
      = (Except.error
          (OTIOErr.notSupported MediaLinkingPolicy.DoNotLinkMedia
            ["studio-v1"]),
         [Event.registryLookup MediaLinkingPolicy.DoNotLinkMedia]) := rfl

/-- C2: for every registered linker name `n`, the orchestrator performs one
registry lookup of `n`, invokes exactly the descriptor registered under `n`
exactly once, passing the clip and the argument map unmodified, and returns
exactly what the link capability returns. -/
theorem registered_name_invoked_exactly_once {Clip MediaRef Val : Type}
    (env : Option String) (manifest : List (MediaLinker Clip MediaRef Val))
    (c : Clip) (n : String) (ml : MediaLinker Clip MediaRef Val)
    (m : List (String × Val))
    (hnFD : n ≠ MediaLinkingPolicy.ForceDefaultLinker) (hne : n ≠ "")
    (hreg : manifest.find? (fun l => l.name == n) = some ml) :
    linked_media_reference env manifest c (some n) (some m)
      = (Except.map LinkOutcome.ref (ml.link c m),
         [Event.registryLookup n, Event.pluginInvoke ml c m]) := by
  have hfn : from_name env manifest (some n)
      = (Except.ok (some ml), [Event.registryLookup n]) := by
    rw [from_name_explicit env manifest n hnFD hne, hreg]
  rw [linked_media_reference_resolved env manifest c (some n) ml _ hfn (some m),
    pyOrEmptyMap_some]
  rfl

/-- Witness for C2 at a concrete registry, clip and argument map. -/
theorem registered_name_invoked_exactly_once_witness :
    linked_media_reference none [demoLinker] 41 (some "studio-v1")
        (some [("root", 5)])
      = (Except.ok (LinkOutcome.ref 42),
         [Event.registryLookup "studio-v1",
          Event.pluginInvoke demoLinker 41 [("root", 5)]]) := by
  rw [registered_name_invoked_exactly_once none [demoLinker] 41 "studio-v1"
    demoLinker [("root", 5)] (by decide) (by decide) rfl]
  rfl

/-- C3: for every explicit name that is neither a sentinel nor empty and is
not registered, the orchestrator fails with a `NotSupportedError` carrying
the requested name and the available-name list computed from the registry at
call time. -/
theorem unregistered_name_raises_enriched_notSupported {Clip MediaRef Val : Type}
    (env : Option String) (manifest : List (MediaLinker Clip MediaRef Val))
    (c : Clip) (n : String)
    (hnFD : n ≠ MediaLinkingPolicy.ForceDefaultLinker) (hne : n ≠ "")
    (hmiss : manifest.find? (fun l => l.name == n) = none) :
    linked_media_reference env manifest c (some n) (some [])
      = (Except.error
          (OTIOErr.notSupported n (available_media_linker_names manifest)),
         [Event.registryLookup n]) := by
  have hfn : from_name env manifest (some n)
      = (Except.error
          (OTIOErr.notSupported n (available_media_linker_names manifest)),
         [Event.registryLookup n]) := by
    rw [from_name_explicit env manifest n hnFD hne, hmiss]
  exact linked_media_reference_error_case env manifest c (some n) (some [])
    _ _ hfn

/-- Witness for C3 at a concrete unregistered name. -/
theorem unregistered_name_raises_enriched_notSupported_witness :
    linked_media_reference none [demoLinker] 7 (some "missing") (some [])
      = (Except.error (OTIOErr.notSupported "missing" ["studio-v1"]),
         [Event.registryLookup "missing"]) :=
  unregistered_name_raises_enriched_notSupported none [demoLinker] 7 "missing"
    (by decide) (by decide) rfl

/-- C4: with no environment default configured, requesting the
`ForceDefaultLinker` sentinel (or no name at all) returns the input clip
unchanged with an empty trace: no registry lookup, a normal outcome. -/
theorem forceDefault_without_env_default_returns_clip {Clip MediaRef Val : Type}
    (manifest : List (MediaLinker Clip MediaRef Val)) (c : Clip)
    (am : Option (List (String × Val))) :
    linked_media_reference none manifest c
        (some MediaLinkingPolicy.ForceDefaultLinker) am
      = (Except.ok (LinkOutcome.clip c), [])
    ∧ linked_media_reference none manifest c none am
      = (Except.ok (LinkOutcome.clip c), []) := by
  constructor <;> rfl

/-- C5: when the requested name is the `ForceDefaultLinker` sentinel, absent,
or empty, the environment default is substituted; a registered default such
as `studio-v1` is looked up and its linker invoked. -/
theorem forceDefault_with_env_default_invokes_it {Clip MediaRef Val : Type}
    (manifest : List (MediaLinker Clip MediaRef Val)) (c : Clip)
    (name : Option String) (d : String) (ml : MediaLinker Clip MediaRef Val)
    (hname : name = some MediaLinkingPolicy.ForceDefaultLinker ∨ name = none
      ∨ name = some "")
    (hd : d ≠ "")
    (hreg : manifest.find? (fun l => l.name == d) = some ml) :
    linked_media_reference (some d) manifest c name (some [])
      = (Except.map LinkOutcome.ref (ml.link c []),
         [Event.registryLookup d, Event.pluginInvoke ml c []]) := by
  have hfn : from_name (some d) manifest name
      = (Except.ok (some ml), [Event.registryLookup d]) := by
    rw [from_name_default_path (some d) manifest name hname]
    have hdf : isFalsyName (some d) = false := by simp [isFalsyName, hd]
    simp only [hdf, Bool.false_eq_true, if_false, Option.getD_some]
    unfold manifest_from_name
    rw [hreg]
  rw [linked_media_reference_resolved (some d) manifest c name ml _ hfn
    (some [])]
  rfl

/-- Witness for C5: environment default `studio-v1`, sentinel requested. -/
theorem forceDefault_with_env_default_invokes_it_witness :
    linked_media_reference (some "studio-v1") [demoLinker] 41
        (some MediaLinkingPolicy.ForceDefaultLinker) (some [])
      = (Except.ok (LinkOutcome.ref 42),
         [Event.registryLookup "studio-v1",
          Event.pluginInvoke demoLinker 41 []]) := by
  rw [forceDefault_with_env_default_invokes_it [demoLinker] 41
    (some MediaLinkingPolicy.ForceDefaultLinker) "studio-v1" demoLinker
    (Or.inl rfl) (by decide) rfl]
  rfl

/-- C6 counterexample: with the environment default variable set to the empty
string, `default_media_linker` returns that empty string instead of treating
it as absent and failing. -/
theorem default_media_linker_empty_value_returns_it :
    default_media_linker (some "") = Except.ok "" := rfl

/-- C6 amended: `default_media_linker` fails with
`NoDefaultMediaLinkerError` exactly when the environment default variable is
absent, and returns the stored value otherwise — including the empty string,
which is returned rather than treated as absent. -/
theorem default_media_linker_fails_iff_unset :
    default_media_linker none
      = Except.error (OTIOErr.noDefaultMediaLinker
          "No default Media Linker set in $OTIO_DEFAULT_MEDIA_LINKER")
    ∧ ∀ v : String, default_media_linker (some v) = Except.ok v :=
  ⟨rfl, fun _ => rfl⟩

/-- C7: a failure raised by the invoked plugin — in particular
`CannotLinkMediaError` — propagates verbatim through the orchestrator; and
when no plugin in the registry ever produces a given `CannotLinkMediaError`,
the orchestrator never produces it either, so the core itself never raises
it. -/
theorem cannotLinkMedia_propagates_verbatim {Clip MediaRef Val : Type}
    (env : Option String) (manifest : List (MediaLinker Clip MediaRef Val))
    (c : Clip) (n : String) (ml : MediaLinker Clip MediaRef Val)
    (am : Option (List (String × Val)))
    (hnFD : n ≠ MediaLinkingPolicy.ForceDefaultLinker) (hne : n ≠ "")
    (hreg : manifest.find? (fun l => l.name == n) = some ml) :
    (∀ e : OTIOErr, ml.link c (pyOrEmptyMap am) = Except.error e →
        (linked_media_reference env manifest c (some n) am).1 = Except.error e)
    ∧ (∀ (env2 : Option String) (man2 : List (MediaLinker Clip MediaRef Val))
        (c2 : Clip) (nm2 : Option String)
        (am2 : Option (List (String × Val))) (msg : String),
        (∀ l ∈ man2, ∀ cl ar,
          l.link cl ar ≠ Except.error (OTIOErr.cannotLinkMedia msg)) →
        (linked_media_reference env2 man2 c2 nm2 am2).1
          ≠ Except.error (OTIOErr.cannotLinkMedia msg)) := by
  constructor
  · intro e he
    have hfn : from_name env manifest (some n)
        = (Except.ok (some ml), [Event.registryLookup n]) := by
      rw [from_name_explicit env manifest n hnFD hne, hreg]
    rw [linked_media_reference_resolved env manifest c (some n) ml _ hfn am]
    simp [he, Except.map]
  · intro env2 man2 c2 nm2 am2 msg hnone
    rcases from_name_cases env2 man2 nm2 with h | ⟨n2, ml2, hfind, h⟩ | ⟨n2, h⟩
    · rw [linked_media_reference_none_case env2 man2 c2 nm2 am2 _ h]
      simp
    · rw [linked_media_reference_resolved env2 man2 c2 nm2 ml2 _ h am2]
      cases hr : ml2.link c2 (pyOrEmptyMap am2) with
      | ok r => simp [hr, Except.map]
      | error e =>
          simp only [hr, Except.map]
          intro hcontra
          have he : e = OTIOErr.cannotLinkMedia msg := by
            injection hcontra
          exact hnone ml2 (List.mem_of_find?_eq_some hfind) c2
            (pyOrEmptyMap am2) (hr.trans (by rw [he]))
    · rw [linked_media_reference_error_case env2 man2 c2 nm2 am2 _ _ h]
      simp

/-- Witness for C7: a plugin that raises `CannotLinkMediaError` sees its
exact failure surface from the orchestrator. -/
theorem cannotLinkMedia_propagates_verbatim_witness :
    (linked_media_reference none [failingLinker] 0 (some "failing") none).1
      = Except.error (OTIOErr.cannotLinkMedia "no media found") :=
  (cannotLinkMedia_propagates_verbatim none [failingLinker] 0 "failing"
    failingLinker none (by decide) (by decide) rfl).1
    (OTIOErr.cannotLinkMedia "no media found") rfl

/-- C8 counterexample: a descriptor whose own documentation is empty but
whose entry point has a docstring still gets the blank-line separator, so the
merged documentation starts with a spurious separator rather than being the
entry-point documentation alone. -/
theorem plugin_info_map_blank_doc_spurious_separator :
    (blankDocLinker.plugin_info_map none).doc = "\n\nentry point docs"
    ∧ (blankDocLinker.plugin_info_map none).doc ≠ "entry point docs" := by
  constructor
  · rfl
  · decide

/-- C8 amended: the merged documentation is the descriptor documentation
alone when the entry-point docstring is absent or empty (no spurious
separator on that side), and otherwise the descriptor documentation followed
by a blank line and the entry-point docstring — the separator is emitted even
when the descriptor documentation is empty; the current-default key is
present exactly when the environment default (empty when unset) equals the
descriptor name. -/
theorem plugin_info_map_doc_merge_and_default_flag {Clip MediaRef Val : Type}
    (self : MediaLinker Clip MediaRef Val) (env : Option String) :
    (self.fnDoc = none → (self.plugin_info_map env).doc = self.doc)
    ∧ (self.fnDoc = some "" → (self.plugin_info_map env).doc = self.doc)
    ∧ (∀ f : String, self.fnDoc = some f → f ≠ "" →
        (self.plugin_info_map env).doc = self.doc ++ "\n\n" ++ f)
    ∧ ((self.plugin_info_map env).currentDefaultFlag = true
        ↔ env.getD "" = self.name) := by
  refine ⟨?_, ?_, ?_, ?_⟩
  · intro h
    simp [MediaLinker.plugin_info_map, basePluginInfoMap, h]
  · intro h
    simp [MediaLinker.plugin_info_map, basePluginInfoMap, h]
  · intro f hf hne
    simp [MediaLinker.plugin_info_map, basePluginInfoMap, hf, hne,
      intercalate_blank_sep]
  · simp [MediaLinker.plugin_info_map, basePluginInfoMap,
      MediaLinker.is_default_linker]

/-- Witness for C8 amended: `demoLinker` under an environment default equal
to its name gets merged documentation and the default flag. -/
theorem plugin_info_map_doc_merge_and_default_flag_witness :
    (demoLinker.plugin_info_map (some "studio-v1")).doc
      = "demo docs" ++ "\n\n" ++ "links demo media"
    ∧ (demoLinker.plugin_info_map (some "studio-v1")).currentDefaultFlag
      = true :=
  ⟨(plugin_info_map_doc_merge_and_default_flag demoLinker
      (some "studio-v1")).2.2.1 "links demo media" rfl (by decide),
   (plugin_info_map_doc_merge_and_default_flag demoLinker
      (some "studio-v1")).2.2.2.mpr rfl⟩

/-- C9: a falsy argument map — `None` or the empty map — is replaced by an
empty dictionary before the plugin entry point executes, both when
`link_media_reference` is called directly and through the orchestrator, so
the plugin always receives a map. -/
theorem falsy_argument_map_replaced_by_empty {Clip MediaRef Val : Type}
    (env : Option String) (manifest : List (MediaLinker Clip MediaRef Val))
    (c : Clip) (n : String) (ml : MediaLinker Clip MediaRef Val)
    (am : Option (List (String × Val)))
    (hfalsy : am = none ∨ am = some [])
    (hnFD : n ≠ MediaLinkingPolicy.ForceDefaultLinker) (hne : n ≠ "")
    (hreg : manifest.find? (fun l => l.name == n) = some ml) :
    MediaLinker.link_media_reference ml c am
      = (ml.link c [], [Event.pluginInvoke ml c []])
    ∧ linked_media_reference env manifest c (some n) am
      = (Except.map LinkOutcome.ref (ml.link c []),
         [Event.registryLookup n, Event.pluginInvoke ml c []]) := by
  have hmap : pyOrEmptyMap am = [] := by
    rcases hfalsy with h | h <;> subst h <;> rfl
  constructor
  · rcases hfalsy with h | h <;> subst h <;> rfl
  · have hfn : from_name env manifest (some n)
        = (Except.ok (some ml), [Event.registryLookup n]) := by
      rw [from_name_explicit env manifest n hnFD hne, hreg]
    rw [linked_media_reference_resolved env manifest c (some n) ml _ hfn am,
      hmap]
    rfl

/-- Witness for C9: a `None` argument map reaches the plugin as the empty
map. -/
theorem falsy_argument_map_replaced_by_empty_witness :
    MediaLinker.link_media_reference demoLinker 41 none
      = (Except.ok 42, [Event.pluginInvoke demoLinker 41 []])
    ∧ linked_media_reference none [demoLinker] 41 (some "studio-v1") none
      = (Except.ok (LinkOutcome.ref 42),
         [Event.registryLookup "studio-v1",
          Event.pluginInvoke demoLinker 41 []]) :=
  falsy_argument_map_replaced_by_empty none [demoLinker] 41 "studio-v1"
    demoLinker none (Or.inl rfl) (by decide) (by decide) rfl

/-- C10: with the environment default variable unset, `is_default_linker`
compares the name against the empty string, so it holds exactly for a linker
whose name is empty. -/
theorem is_default_linker_unset_env_iff_empty_name {Clip MediaRef Val : Type}
    (self : MediaLinker Clip MediaRef Val) :
    self.is_default_linker none = true ↔ self.name = "" := by
  simp only [MediaLinker.is_default_linker, Option.getD_none, beq_iff_eq]
  exact eq_comm

/-- Witness for C10: the empty-named linker is reported as the default even
though no default is configured. -/
theorem is_default_linker_unset_env_iff_empty_name_witness :
    MediaLinker.is_default_linker unnamedLinker none = true :=
  (is_default_linker_unset_env_iff_empty_name unnamedLinker).mpr rfl
